import Mathlib

/-!
Verification of the grade-inflation dashboard (`src/app.py`) against its
specification.  The script is embedded shallowly: each pandas computation is
translated into a pure Lean function over lists of records, with rational
numbers standing for the idealised real arithmetic of the source.  All
definitions are executable so that concrete tables can be evaluated inside
proofs.
-/

namespace Dashboard

/- Batteries marks the rational-number arithmetic irreducible, which blocks
`decide` on concrete rational computations; the kernel ignores reducibility,
so making them semireducible is sound and lets concrete evaluations reduce. -/
attribute [local semireducible] Rat.mul Rat.inv Rat.add Rat.sub Rat.ofScientific

/-- One row of the source spreadsheet (`df_27feb.xlsx`): a
student-course-semester observation.  Column names follow `app.py`.
Identifier and year columns are rational because pandas reads them as
floats (the display code at `app.py:66-70` tests `x == int(x)` on them). -/
structure RawRecord where
  studentID : ℚ
  registrationYear : ℚ
  birthYear : ℚ
  gender : String
  origin : String
  department : String
  majorType : String
  major : String
  semester : ℤ
  credits : ℚ
  grade : ℚ
deriving DecidableEq

/-- A loaded record: a `RawRecord` augmented with the derived `Year` column
added by `load_data` (`app.py:15`). -/
structure LRecord where
  studentID : ℚ
  registrationYear : ℚ
  birthYear : ℚ
  gender : String
  origin : String
  department : String
  majorType : String
  major : String
  semester : ℤ
  credits : ℚ
  grade : ℚ
  year : ℤ
deriving DecidableEq

/-- `load_data` (`app.py:13-16`): `df['Year'] = (df['Semester'] // 10).astype(int)`.
Python `//` is floor division, i.e. `Int.fdiv`. -/
def loadData (rows : List RawRecord) : List LRecord :=
  rows.map (fun r =>
    { studentID := r.studentID, registrationYear := r.registrationYear,
      birthYear := r.birthYear, gender := r.gender, origin := r.origin,
      department := r.department, majorType := r.majorType, major := r.major,
      semester := r.semester, credits := r.credits, grade := r.grade,
      year := Int.fdiv r.semester 10 })

/-- `df['COVID_Period']` (`app.py:526`):
`'Pre-COVID' if x < 2020 else 'Post-COVID'` applied to the `Year` column. -/
def covidPeriod (r : LRecord) : String :=
  if r.year < 2020 then "Pre-COVID" else "Post-COVID"

/-- Arithmetic mean, as pandas `.mean()` over a column with no missing
values. -/
def mean (l : List ℚ) : ℚ := l.sum / l.length

/-- Sample variance with `ddof = 1`, the default of pandas `.std()`/`.var()`
and of `scipy.stats.ttest_ind`.  Only meaningful for lists of length ≥ 2. -/
def sampleVar (l : List ℚ) : ℚ :=
  ((l.map (fun x => (x - mean l) ^ 2)).sum) / ((l.length : ℚ) - 1)

/-- Insert into a sorted list using a boolean comparator (structural, so the
kernel can evaluate it). -/
def insertLeB {α : Type} (le : α → α → Bool) (x : α) : List α → List α
  | [] => [x]
  | y :: ys => if le x y then x :: y :: ys else y :: insertLeB le x ys

/-- Insertion sort with a boolean comparator.  Stands for the (unique, for
duplicate-free keys or equal-valued ties) sorted order pandas produces. -/
def sortLeB {α : Type} (le : α → α → Bool) (l : List α) : List α :=
  l.foldr (insertLeB le) []

/-- Pandas/numpy quantile with the default `linear` interpolation
(`app.py:530`, `app.py:610`, and the `25%`/`50%`/`75%` rows of `describe`):
on the sorted column `s` of length `n`, the `q`-quantile sits at position
`h = q * (n − 1)` and is interpolated between `s[⌊h⌋]` and `s[⌊h⌋ + 1]`.
Only used on nonempty columns (pandas yields NaN on an empty column). -/
def quantile (q : ℚ) (l : List ℚ) : ℚ :=
  let s := sortLeB (fun a b => decide (a ≤ b)) l
  let h : ℚ := q * ((l.length : ℚ) - 1)
  let j : ℕ := (Rat.floor h).toNat
  let lo := s.getD j 0
  let hi := s.getD (j + 1) lo
  lo + (h - (j : ℚ)) * (hi - lo)

/-- `pre_covid_outliers` (`app.py:529-536`): restrict to the pre-COVID
partition, compute `Q1`, `Q3`, `IQR` over that partition's grades, and keep
the records with grade strictly outside `[Q1 - 1.5*IQR, Q3 + 1.5*IQR]`
(`1.5` is written `3/2`). -/
def preCovidOutliers (df : List LRecord) : List LRecord :=
  let pre := df.filter (fun r => covidPeriod r == "Pre-COVID")
  let q1 := quantile (1/4) (pre.map (·.grade))
  let q3 := quantile (3/4) (pre.map (·.grade))
  let iqr := q3 - q1
  let lowerBound := q1 - 3/2 * iqr
  let upperBound := q3 + 3/2 * iqr
  pre.filter (fun r => decide (r.grade < lowerBound) || decide (r.grade > upperBound))

/-- `outliers_df` (`app.py:609-613`): restrict to `Year >= 2020`, compute the
quartiles of that partition, but keep only the records with
`Grade < lower_bound` — the upper fence is computed into `IQR` but never
applied in the filter on line 613. -/
def postCovidOutliers (df : List LRecord) : List LRecord :=
  let post := df.filter (fun r => decide (2020 ≤ r.year))
  let q1 := quantile (1/4) (post.map (·.grade))
  let q3 := quantile (3/4) (post.map (·.grade))
  let iqr := q3 - q1
  let lowerBound := q1 - 3/2 * iqr
  post.filter (fun r => decide (r.grade < lowerBound))

/-- Follows the spec's words (§3 OutlierSet, §4.3 `iqrOutliers`): the subset
of the given partition whose grade falls outside
`[Q1 - 1.5*IQR, Q3 + 1.5*IQR]`, quartiles computed over that partition's
grade column only. -/
def iqrOutliersSpec (t : List LRecord) : List LRecord :=
  let grades := t.map (·.grade)
  let q1 := quantile (1/4) grades
  let q3 := quantile (3/4) grades
  t.filter (fun r =>
    decide (r.grade < q1 - 3/2 * (q3 - q1)) || decide (q3 + 3/2 * (q3 - q1) < r.grade))

/-- The lower-fence-only outlier rule the code actually applies to the
post-COVID partition (`app.py:613`, and to both partitions in the statistics
table, `app.py:566` and `app.py:571`): records with
`grade < Q1 - 1.5*IQR`, quartiles from the given partition. -/
def lowerFenceOutliersSpec (t : List LRecord) : List LRecord :=
  let grades := t.map (·.grade)
  let q1 := quantile (1/4) grades
  let q3 := quantile (3/4) grades
  t.filter (fun r => decide (r.grade < q1 - 3/2 * (q3 - q1)))

/-- One row of `grouped_data` (`app.py:53-64`): the per-student rollup. -/
structure RollupRow where
  studentID : ℚ
  registrationYear : ℚ
  birthYear : ℚ
  gender : String
  origin : String
  department : String
  majorType : String
  major : String
  numberOfSemesters : ℕ
  totalCredits : ℚ
  averageGrade : ℚ
deriving DecidableEq

/-- The distinct student identifiers of a table, in the ascending order
pandas `groupby('StudentID')` (with its default `sort=True`) emits. -/
def studentRollupIds (rows : List LRecord) : List ℚ :=
  sortLeB (fun a b => decide (a ≤ b)) ((rows.map (·.studentID)).dedup)

/-- `grouped_data` (`app.py:53-64`): group by `StudentID`; take the first row
(in input order) for the categorical/first-seen columns, count the semester
rows, sum the credits and average the grades.  (The embedding has no missing
values, so pandas `first`/`count` coincide with head and length.) -/
def studentRollup (rows : List LRecord) : List RollupRow :=
  (studentRollupIds rows).map (fun i =>
    let g := rows.filter (fun r => r.studentID == i)
    { studentID := i,
      registrationYear := (g.map (·.registrationYear)).headD 0,
      birthYear := (g.map (·.birthYear)).headD 0,
      gender := (g.map (·.gender)).headD "",
      origin := (g.map (·.origin)).headD "",
      department := (g.map (·.department)).headD "",
      majorType := (g.map (·.majorType)).headD "",
      major := (g.map (·.major)).headD "",
      numberOfSemesters := g.length,
      totalCredits := (g.map (·.credits)).sum,
      averageGrade := mean (g.map (·.grade)) })

/-- Round half to even, the rounding of pandas `.round` and of numpy. -/
def roundHalfEven (x : ℚ) : ℤ :=
  let f := Rat.floor x
  let r := x - f
  if r < 1/2 then f
  else if 1/2 < r then f + 1
  else if f % 2 = 0 then f else f + 1

/-- Pandas `.round(2)` (`app.py:71`). -/
def round2 (x : ℚ) : ℚ := (roundHalfEven (x * 100) : ℚ) / 100

/-- Python `f"{x:.2f}"`: fixed two-decimal rendering. -/
def fmtFixed2 (x : ℚ) : String :=
  let c := roundHalfEven (x * 100)
  let a := c.natAbs
  (if c < 0 then "-" else "") ++ toString (a / 100) ++ "." ++
    (if a % 100 < 10 then "0" else "") ++ toString (a % 100)

/-- The lambda of `app.py:66-70`:
`f"{x:.0f}" if x == int(x) else f"{x:.2f}"`. -/
def fmtIntIfWhole (x : ℚ) : String :=
  if x.den = 1 then toString x.num else fmtFixed2 x

/-- The shape of `grouped_data` after the in-place formatting of
`app.py:66-71`: `StudentID`, `RegistrationYear` and `BirthYear` have become
display strings and `Average_Grade` has been rounded to two decimals. -/
structure FmtRollupRow where
  studentID : String
  registrationYear : String
  birthYear : String
  gender : String
  origin : String
  department : String
  majorType : String
  major : String
  numberOfSemesters : ℕ
  totalCredits : ℚ
  averageGrade : ℚ
deriving DecidableEq

/-- The in-place formatting `app.py:66-71` applies to one rollup row. -/
def formatRollupRow (r : RollupRow) : FmtRollupRow :=
  { studentID := fmtIntIfWhole r.studentID,
    registrationYear := fmtIntIfWhole r.registrationYear,
    birthYear := fmtIntIfWhole r.birthYear,
    gender := r.gender, origin := r.origin, department := r.department,
    majorType := r.majorType, major := r.major,
    numberOfSemesters := r.numberOfSemesters,
    totalCredits := r.totalCredits,
    averageGrade := round2 r.averageGrade }

/-- `grouped_data` as it stands after `app.py:66-71` (the formatting is
applied to the table itself, not to a copy). -/
def formatGroupedData (l : List RollupRow) : List FmtRollupRow :=
  l.map formatRollupRow

/-- `filtered_data` (`app.py:47`): the year-range filter
`df[(df['Year'] >= lo) & (df['Year'] <= hi)]`, inclusive on both ends. -/
def filteredData (df : List LRecord) (lo hi : ℤ) : List LRecord :=
  df.filter (fun r => decide (lo ≤ r.year) && decide (r.year ≤ hi))

/-- `filtered_grouped_data` (`app.py:94-97`): conjunction of the department
and major-type `isin` set filters over the (formatted) rollup table. -/
def filteredGroupedData (t : List FmtRollupRow) (ds ms : List String) :
    List FmtRollupRow :=
  t.filter (fun r => ds.contains r.department && ms.contains r.majorType)

/-- `grade_trends` (`app.py:113`): `df.groupby('Year')['Grade'].mean()` —
one (year, mean grade) pair per year present, years ascending. -/
def trendByYear (df : List LRecord) : List (ℤ × ℚ) :=
  let years := sortLeB (fun a b => decide (a ≤ b)) ((df.map (·.year)).dedup)
  years.map (fun y => (y, mean ((df.filter (fun r => r.year == y)).map (·.grade))))

/-- Pandas `series.pct_change().mean() * 100` (`app.py:197`, `app.py:279`):
the first entry's change is NaN and is skipped by `.mean()`; the change at a
year whose predecessor has value 0 is NaN (`0/0`) or infinite, so the mean
has no finite value (modelled as `none`); otherwise the mean of the
`n − 1` year-over-year relative changes, times 100. -/
def pctChangeMean (s : List ℚ) : Option ℚ :=
  if s.length < 2 then none
  else if (0 : ℚ) ∈ s.dropLast then none
  else some (mean ((s.dropLast.zip s.tail).map (fun p => (p.2 - p.1) / p.1)) * 100)

/-- `yearly_grade_change` (`app.py:197`):
`df.groupby('Year')['Grade'].mean().pct_change().mean() * 100`. -/
def yearlyGradeChange (df : List LRecord) : Option ℚ :=
  pctChangeMean ((trendByYear df).map (·.2))

/-- `dept_grade_change` (`app.py:279-280`): the same statistic over the rows
of one department. -/
def deptGradeChange (df : List LRecord) (dep : String) : Option ℚ :=
  pctChangeMean ((trendByYear (df.filter (fun r => r.department == dep))).map (·.2))

/-- Pandas `describe()` of a numeric column (`app.py:426`, `app.py:559-560`).
`varSample` is the square of the reported sample standard deviation
(`ddof = 1`); it is `none` when fewer than two observations make the sample
standard deviation NaN. -/
structure DescribeStats where
  count : ℕ
  mean : ℚ
  varSample : Option ℚ
  min : ℚ
  q25 : ℚ
  median : ℚ
  q75 : ℚ
  max : ℚ
deriving DecidableEq

/-- Pandas `describe()` over a column with no missing values. -/
def describeQ (l : List ℚ) : DescribeStats :=
  { count := l.length,
    mean := mean l,
    varSample := if l.length < 2 then none else some (sampleVar l),
    min := quantile 0 l,
    q25 := quantile (1/4) l,
    median := quantile (1/2) l,
    q75 := quantile (3/4) l,
    max := quantile 1 l }

/-- The value pair `scipy.stats.ttest_ind` returns, represented exactly:
the real t-statistic is `tNum / sqrt tDenSq`, and the p-value is
`2 * sf(|t|, df)` where `sf` is the fixed survival function of Student's
t-distribution — so the triple determines the returned (t, p) pair, and two
calls agree on (t, p) iff they agree on (`tNum`, `tDenSq`, `df`). -/
structure TResult where
  tNum : ℚ
  tDenSq : ℚ
  df : ℚ
deriving DecidableEq

/-- The `equal_var=False` branch of `scipy.stats.ttest_ind`: Welch's test.
`t = (mean a - mean b) / sqrt(v1/n1 + v2/n2)` with unbiased variances, and
the Welch–Satterthwaite degrees of freedom.  `none` models the NaN result
scipy produces when a sample has fewer than two observations or both
variances vanish. -/
def ttest_ind_welch (a b : List ℚ) : Option TResult :=
  if a.length < 2 ∨ b.length < 2 then none
  else if sampleVar a / a.length + sampleVar b / b.length = 0 then none
  else some
    { tNum := mean a - mean b,
      tDenSq := sampleVar a / a.length + sampleVar b / b.length,
      df := (sampleVar a / a.length + sampleVar b / b.length) ^ 2 /
        ((sampleVar a / a.length) ^ 2 / ((a.length : ℚ) - 1) +
         (sampleVar b / b.length) ^ 2 / ((b.length : ℚ) - 1)) }

/-- The `equal_var=True` branch of `scipy.stats.ttest_ind`: the pooled
(Student) two-sample test with `df = n1 + n2 - 2` and the pooled variance. -/
def ttest_ind_pooled (a b : List ℚ) : Option TResult :=
  if a.length < 2 ∨ b.length < 2 then none
  else if (((a.length : ℚ) - 1) * sampleVar a + ((b.length : ℚ) - 1) * sampleVar b) /
        ((a.length : ℚ) + (b.length : ℚ) - 2) * (1 / (a.length : ℚ) + 1 / (b.length : ℚ)) = 0
    then none
  else some
    { tNum := mean a - mean b,
      tDenSq := (((a.length : ℚ) - 1) * sampleVar a + ((b.length : ℚ) - 1) * sampleVar b) /
        ((a.length : ℚ) + (b.length : ℚ) - 2) * (1 / (a.length : ℚ) + 1 / (b.length : ℚ)),
      df := (a.length : ℚ) + (b.length : ℚ) - 2 }

/-- `scipy.stats.ttest_ind(a, b, equal_var=...)`, as called at
`app.py:574-576`. -/
def ttest_ind (a b : List ℚ) (equalVar : Bool) : Option TResult :=
  if equalVar then ttest_ind_pooled a b else ttest_ind_welch a b

/-- Follows the spec's words (§4.3 `twoSampleComparison`, glossary):
Welch's t-test, the two-sample t-test that does not assume equal population
variances — statistic `(m1 - m2) / sqrt(s1²/n1 + s2²/n2)` with sample
variances `s²` and the Welch–Satterthwaite degrees of freedom; needs at
least two observations per group (§7 `InsufficientDataError`). -/
def welchTTestSpec (a b : List ℚ) : Option TResult :=
  if 2 ≤ a.length ∧ 2 ≤ b.length then
    let m1 := mean a
    let m2 := mean b
    let se1 := sampleVar a / a.length
    let se2 := sampleVar b / b.length
    if se1 + se2 = 0 then none
    else
      some { tNum := m1 - m2,
             tDenSq := se1 + se2,
             df := (se1 + se2) ^ 2 /
               (se1 ^ 2 / ((a.length : ℚ) - 1) + se2 ^ 2 / ((b.length : ℚ) - 1)) }
  else none

/-- The t-test of `app.py:574-576`: pre-COVID grades versus post-COVID
grades with `equal_var=False`. -/
def tTestCovid (df : List LRecord) : Option TResult :=
  ttest_ind ((df.filter (fun r => covidPeriod r == "Pre-COVID")).map (·.grade))
            ((df.filter (fun r => covidPeriod r == "Post-COVID")).map (·.grade))
            false

/-- `avg_grade_per_department` / `avg_grade_per_major_type`
(`app.py:246`, `app.py:362`): `df.groupby(['Year', cat])['Grade'].mean()` —
one entry per (year, category) pair present, keys in ascending
lexicographic order. -/
def trendByYearAnd (key : LRecord → String) (df : List LRecord) :
    List ((ℤ × String) × ℚ) :=
  let keys := sortLeB
    (fun a b => decide (a.1 < b.1) || (a.1 == b.1 && decide (a.2 ≤ b.2)))
    ((df.map (fun r => (r.year, key r))).dedup)
  keys.map (fun k =>
    (k, mean ((df.filter (fun r => r.year == k.1 && key r == k.2)).map (·.grade))))

/-- `gender_stats` (`app.py:423-426`): restrict to the two binary gender
categories, then `describe()` per gender (groups in ascending key order).
The display-side `.round(2)` and string formatting of `app.py:426-442`
happen in the formatter, on a copy. -/
def genderStats (df : List LRecord) : List (String × DescribeStats) :=
  let fdf := df.filter (fun r => r.gender == "Karl" || r.gender == "Kona")
  let gs := sortLeB (fun a b => decide (a ≤ b)) ((fdf.map (·.gender)).dedup)
  gs.map (fun g => (g, describeQ ((fdf.filter (fun r => r.gender == g)).map (·.grade))))

/-- `outliers_pre` (`app.py:563-566`): pre-COVID records below the lower
fence built from the pre-COVID `describe` quartiles (lower fence only). -/
def outliersPre (df : List LRecord) : List LRecord :=
  let preStats := describeQ ((df.filter (fun r => covidPeriod r == "Pre-COVID")).map (·.grade))
  let lb := preStats.q25 - 3/2 * (preStats.q75 - preStats.q25)
  df.filter (fun r => covidPeriod r == "Pre-COVID" && decide (r.grade < lb))

/-- `outliers_post` (`app.py:568-571`): post-COVID records below the lower
fence built from the post-COVID `describe` quartiles (lower fence only). -/
def outliersPost (df : List LRecord) : List LRecord :=
  let postStats := describeQ ((df.filter (fun r => covidPeriod r == "Post-COVID")).map (·.grade))
  let lb := postStats.q25 - 3/2 * (postStats.q75 - postStats.q25)
  df.filter (fun r => covidPeriod r == "Post-COVID" && decide (r.grade < lb))

/-- The aggregate views the script computes for one run of the page, as a
function of the source table and the interactive filter state (year-range
slider, department allowlist, major-type allowlist).  Every field except
`filteredGrouped` is computed from the full loaded table `df`, mirroring
`app.py` where only `filtered_data`/`grouped_data`/`filtered_grouped_data`
read the slider and sidebar selections. -/
structure Views where
  filteredGrouped : List FmtRollupRow
  gradeTrends : List (ℤ × ℚ)
  yearlyChange : Option ℚ
  deptTrends : List ((ℤ × String) × ℚ)
  deptChange : String → Option ℚ
  majorTypeTrends : List ((ℤ × String) × ℚ)
  genderTable : List (String × DescribeStats)
  preStats : DescribeStats
  postStats : DescribeStats
  tTest : Option TResult
  preOutliers : List LRecord
  postOutliers : List LRecord
  outliersPreCount : ℕ
  outliersPostCount : ℕ

/-- The whole recomputation pass of `app.py` for a given filter state. -/
def views (df0 : List RawRecord) (yearRange : ℤ × ℤ) (ds ms : List String) :
    Views :=
  let df := loadData df0
  let fd := filteredData df yearRange.1 yearRange.2
  let gd := formatGroupedData (studentRollup fd)
  { filteredGrouped := filteredGroupedData gd ds ms,
    gradeTrends := trendByYear df,
    yearlyChange := yearlyGradeChange df,
    deptTrends := trendByYearAnd (·.department) df,
    deptChange := deptGradeChange df,
    majorTypeTrends := trendByYearAnd (·.majorType) df,
    genderTable := genderStats df,
    preStats := describeQ ((df.filter (fun r => covidPeriod r == "Pre-COVID")).map (·.grade)),
    postStats := describeQ ((df.filter (fun r => covidPeriod r == "Post-COVID")).map (·.grade)),
    tTest := tTestCovid df,
    preOutliers := preCovidOutliers df,
    postOutliers := postCovidOutliers df,
    outliersPreCount := (outliersPre df).length,
    outliersPostCount := (outliersPost df).length }

/-- Sample raw record used to instantiate theorems on concrete tables. -/
def mkRaw (sid : ℚ) (sem : ℤ) (g : ℚ) : RawRecord :=
  { studentID := sid, registrationYear := 2015, birthYear := 1995,
    gender := "Kona", origin := "IS", department := "CS", majorType := "BSc",
    major := "CS-BSc", semester := sem, credits := 30, grade := g }

/-- Sample loaded record: year `y`, semester code `y*10 + 1` (so that
`year = semester // 10` holds, as `load_data` guarantees). -/
def mkL (sid : ℚ) (y : ℤ) (g : ℚ) : LRecord :=
  { studentID := sid, registrationYear := 2015, birthYear := 1995,
    gender := "Kona", origin := "IS", department := "CS", majorType := "BSc",
    major := "CS-BSc", semester := y * 10 + 1, credits := 30, grade := g,
    year := y }

/-- Concrete table for the post-COVID outlier computation: five records in
2020 with grades 1, 1, 1, 1, 100.  Quartiles of the partition are
`Q1 = Q3 = 1`, so both fences are 1 and the grade-100 record lies above the
upper fence. -/
def c1df : List LRecord :=
  [mkL 1 2020 1, mkL 2 2020 1, mkL 3 2020 1, mkL 4 2020 1, mkL 5 2020 100]

/-- Concrete table whose yearly trend is the constant-zero series. -/
def c6df : List LRecord := [mkL 1 2018 0, mkL 2 2019 0]

/-- Concrete table: one student with three semester rows, grades 8, 9, 9,
whose mean 26/3 is not representable in two decimals. -/
def c4rows : List LRecord := [mkL 1 2018 8, mkL 1 2019 9, mkL 1 2020 9]

/-- Inserting with `insertLeB` yields a permutation of consing. -/
lemma insertLeB_perm {α : Type} (le : α → α → Bool) (x : α) (l : List α) :
    (insertLeB le x l).Perm (x :: l) := by
  induction l with
  | nil => exact List.Perm.refl _
  | cons y ys ih =>
    unfold insertLeB
    split
    · exact List.Perm.refl _
    · exact (ih.cons y).trans (List.Perm.swap x y ys)

/-- `sortLeB` permutes its input. -/
lemma sortLeB_perm {α : Type} (le : α → α → Bool) (l : List α) :
    (sortLeB le l).Perm l := by
  induction l with
  | nil => exact List.Perm.refl _
  | cons x xs ih => exact (insertLeB_perm le x (sortLeB le xs)).trans (ih.cons x)

/-- Sorting preserves membership. -/
lemma mem_sortLeB {α : Type} (le : α → α → Bool) (l : List α) (a : α) :
    a ∈ sortLeB le l ↔ a ∈ l :=
  (sortLeB_perm le l).mem_iff

/-- Sorting preserves freedom from duplicates. -/
lemma nodup_sortLeB {α : Type} (le : α → α → Bool) {l : List α} (h : l.Nodup) :
    (sortLeB le l).Nodup :=
  ((sortLeB_perm le l).nodup_iff).2 h

/-- The rollup's key list contains exactly the student identifiers of the
input. -/
lemma mem_studentRollupIds {rows : List LRecord} {i : ℚ} :
    i ∈ studentRollupIds rows ↔ i ∈ rows.map (·.studentID) :=
  (mem_sortLeB _ _ _).trans List.mem_dedup

/-- The rollup rows carry the (sorted, deduplicated) student identifiers. -/
lemma studentRollup_map_ids (rows : List LRecord) :
    (studentRollup rows).map (·.studentID) = studentRollupIds rows := by
  unfold studentRollup
  rw [List.map_map]
  exact List.map_id _

/-- C3: for every record produced by the load step, the derived year is the
floor of the semester code divided by 10, and the COVID-period
classification is `"Pre-COVID"` exactly when that year is strictly below
2020 (so 2020 itself is classified as post). -/
theorem c3_year_and_covid (rows : List RawRecord) (r : LRecord)
    (hr : r ∈ loadData rows) :
    r.year = Int.fdiv r.semester 10 ∧
      (covidPeriod r = "Pre-COVID" ↔ r.year < 2020) := by
  rcases List.mem_map.1 hr with ⟨r0, _hr0, rfl⟩
  refine ⟨rfl, ?_⟩
  unfold covidPeriod
  by_cases h : Int.fdiv r0.semester 10 < 2020
  · rw [if_pos h]
    exact iff_of_true rfl h
  · rw [if_neg h]
    exact iff_of_false (by decide) h

/-- Witness for `c3_year_and_covid`: the single record of semester 20181. -/
def c3rec : LRecord :=
  { studentID := 1, registrationYear := 2015, birthYear := 1995,
    gender := "Kona", origin := "IS", department := "CS", majorType := "BSc",
    major := "CS-BSc", semester := 20181, credits := 30, grade := 8,
    year := 2018 }

theorem c3_year_and_covid_witness :
    c3rec.year = Int.fdiv c3rec.semester 10 ∧
      (covidPeriod c3rec = "Pre-COVID" ↔ c3rec.year < 2020) :=
  c3_year_and_covid [mkRaw 1 20181 8] c3rec (by decide)

/-- C1 counterexample: on a table whose post-COVID partition has grades
1, 1, 1, 1, 100, the quartiles are `Q1 = Q3 = 1`, so the grade-100 record
falls outside `[Q1 - 1.5*IQR, Q3 + 1.5*IQR]` — yet the code's post-COVID
outlier computation (`app.py:613`, which only tests the lower fence)
returns the empty set, so it is not the set of records outside both
fences that the claim describes. -/
theorem c1_counterexample :
    postCovidOutliers c1df = [] ∧
    iqrOutliersSpec (c1df.filter (fun r => decide (2020 ≤ r.year))) = [mkL 5 2020 100] ∧
    postCovidOutliers c1df ≠
      iqrOutliersSpec (c1df.filter (fun r => decide (2020 ≤ r.year))) := by
  decide

/-- C1 amended: the pre-COVID outlier set (`app.py:529-536`) is exactly the
records of the pre-COVID partition outside `[Q1 - 1.5*IQR, Q3 + 1.5*IQR]`
with the quartiles of that partition; the post-COVID outlier set
(`app.py:609-613`) is exactly the records of the post-COVID partition
strictly below the lower fence `Q1 - 1.5*IQR` of that partition (the upper
fence is not applied); each outlier set is a subset of the input table, and
neither partition's bounds are used for the other. -/
theorem c1_outliers_amended (df : List LRecord) :
    preCovidOutliers df =
      iqrOutliersSpec (df.filter (fun r => covidPeriod r == "Pre-COVID")) ∧
    postCovidOutliers df =
      lowerFenceOutliersSpec (df.filter (fun r => decide (2020 ≤ r.year))) ∧
    (preCovidOutliers df).Sublist df ∧
    (postCovidOutliers df).Sublist df :=
  ⟨rfl, rfl,
    (List.filter_sublist _).trans (List.filter_sublist _),
    (List.filter_sublist _).trans (List.filter_sublist _)⟩

/-- C2: the two-sample comparison of `app.py:574-576` calls
`ttest_ind(..., equal_var=False)`, which agrees with the Welch
(unequal-variance) formula on every pair of samples; and on a concrete
pair of samples the pooled equal-variance branch differs from it both in
the squared t-statistic and in the degrees of freedom, hence in the
(t, p) pair (the p-value is the fixed Student-t tail function of
(|t|, df)). -/
theorem c2_welch_ttest :
    (∀ a b : List ℚ, ttest_ind a b false = welchTTestSpec a b) ∧
    Option.map (fun r => r.tNum ^ 2 / r.tDenSq) (ttest_ind [1, 2, 3, 4] [10, 20, 30] true) ≠
      Option.map (fun r => r.tNum ^ 2 / r.tDenSq) (ttest_ind [1, 2, 3, 4] [10, 20, 30] false) ∧
    Option.map (fun r => r.df) (ttest_ind [1, 2, 3, 4] [10, 20, 30] true) ≠
      Option.map (fun r => r.df) (ttest_ind [1, 2, 3, 4] [10, 20, 30] false) := by
  refine ⟨?_, by decide, by decide⟩
  intro a b
  show ttest_ind_welch a b = welchTTestSpec a b
  unfold ttest_ind_welch welchTTestSpec
  by_cases h : a.length < 2 ∨ b.length < 2
  · have h2 : ¬(2 ≤ a.length ∧ 2 ≤ b.length) := by omega
    rw [if_pos h, if_neg h2]
  · have h2 : 2 ≤ a.length ∧ 2 ≤ b.length := by omega
    rw [if_neg h, if_pos h2]

/-- C4 counterexample: the rollup formatting of `app.py:66-71` is applied to
`grouped_data` itself, not to a copy, and `filtered_grouped_data`
(`app.py:94-97`) reads the table afterwards.  On a student whose grades are
8, 9, 9 the raw rollup mean is 26/3, but the row that reaches the
downstream filtered table carries the rounded value 8.67 — the downstream
consumer does not see the original numeric value. -/
theorem c4_counterexample :
    (studentRollup c4rows).map (fun r => r.averageGrade) = [26 / 3] ∧
    (filteredGroupedData (formatGroupedData (studentRollup c4rows)) ["CS"] ["BSc"]).map
        (fun r => r.averageGrade) = [867 / 100] ∧
    (867 / 100 : ℚ) ≠ 26 / 3 := by
  decide

/-- C4 amended: the rollup formatting does alter the values the downstream
filter reads — `Average_Grade` becomes its two-decimal rounding and the
identifier/year columns become display strings — but it is a pure
per-row map that leaves `Department`, `Major_Type`, the semester count and
the credit total unchanged, so the downstream set filter selects exactly
the (formatted images of the) rows it would select on the unformatted
rollup. -/
theorem c4_formatting_amended :
    (∀ r : RollupRow,
      (formatRollupRow r).department = r.department ∧
      (formatRollupRow r).majorType = r.majorType ∧
      (formatRollupRow r).numberOfSemesters = r.numberOfSemesters ∧
      (formatRollupRow r).totalCredits = r.totalCredits ∧
      (formatRollupRow r).averageGrade = round2 r.averageGrade) ∧
    (∀ (gd : List RollupRow) (ds ms : List String),
      filteredGroupedData (formatGroupedData gd) ds ms =
        (gd.filter (fun r => ds.contains r.department && ms.contains r.majorType)).map
          formatRollupRow) := by
  refine ⟨fun r => ⟨rfl, rfl, rfl, rfl, rfl⟩, fun gd ds ms => ?_⟩
  unfold filteredGroupedData formatGroupedData
  rw [List.filter_map]
  rfl

/-- Concrete table for the rollup theorem: student 2 has two semester rows
(grades 8 and 9), student 1 has one row (grade 6). -/
def c5rows : List LRecord := [mkL 2 2018 8, mkL 1 2019 6, mkL 2 2019 9]

/-- The rollup row produced for student 2 of `c5rows`. -/
def c5row2 : RollupRow :=
  { studentID := 2, registrationYear := 2015, birthYear := 1995,
    gender := "Kona", origin := "IS", department := "CS", majorType := "BSc",
    major := "CS-BSc", numberOfSemesters := 2, totalCredits := 60,
    averageGrade := 17 / 2 }

/-- C5: the rollup has exactly one row per distinct student identifier of
the input (its identifier column is duplicate-free and carries the same
identifiers as the input), and each row takes the first-seen columns from
the first row of that student in input order (the head `r0` of the
student's filtered group), the semester count as the number of that
student's rows, the credit total as the sum and the average grade as the
mean of that student's grades. -/
theorem c5_student_rollup (rows : List LRecord) :
    (((studentRollup rows).map (·.studentID)).Nodup ∧
      ∀ i : ℚ, i ∈ (studentRollup rows).map (·.studentID) ↔
        i ∈ rows.map (·.studentID)) ∧
    ∀ row ∈ studentRollup rows,
      ∃ r0 t, rows.filter (fun r => r.studentID == row.studentID) = r0 :: t ∧
        row.registrationYear = r0.registrationYear ∧
        row.birthYear = r0.birthYear ∧
        row.gender = r0.gender ∧
        row.origin = r0.origin ∧
        row.department = r0.department ∧
        row.majorType = r0.majorType ∧
        row.major = r0.major ∧
        row.numberOfSemesters = (r0 :: t).length ∧
        row.totalCredits = ((r0 :: t).map (·.credits)).sum ∧
        row.averageGrade = mean ((r0 :: t).map (·.grade)) := by
  constructor
  · rw [studentRollup_map_ids]
    exact ⟨nodup_sortLeB _ (List.nodup_dedup _), fun i => mem_studentRollupIds⟩
  · intro row hrow
    rcases List.mem_map.1 hrow with ⟨i, hi, rfl⟩
    rcases List.mem_map.1 (mem_studentRollupIds.1 hi) with ⟨r, hr, hri⟩
    cases hgt : rows.filter (fun r' => r'.studentID == i) with
    | nil =>
      exfalso
      have : r ∈ rows.filter (fun r' => r'.studentID == i) :=
        List.mem_filter.2 ⟨hr, by rw [hri]; exact beq_self_eq_true i⟩
      rw [hgt] at this
      exact absurd this (List.not_mem_nil r)
    | cons r0 t =>
      exact ⟨r0, t, rfl, rfl, rfl, rfl, rfl, rfl, rfl, rfl, rfl, rfl, rfl⟩

theorem c5_student_rollup_witness :
    ∃ r0 t, c5rows.filter (fun r => r.studentID == c5row2.studentID) = r0 :: t ∧
      c5row2.registrationYear = r0.registrationYear ∧
      c5row2.birthYear = r0.birthYear ∧
      c5row2.gender = r0.gender ∧
      c5row2.origin = r0.origin ∧
      c5row2.department = r0.department ∧
      c5row2.majorType = r0.majorType ∧
      c5row2.major = r0.major ∧
      c5row2.numberOfSemesters = (r0 :: t).length ∧
      c5row2.totalCredits = ((r0 :: t).map (·.credits)).sum ∧
      c5row2.averageGrade = mean ((r0 :: t).map (·.grade)) :=
  (c5_student_rollup c5rows).2 c5row2 (by decide)

/-- C6 counterexample: on a table whose yearly trend is the constant-zero
series (all grades 0 in 2018 and 2019), every year has the same mean grade,
yet `pct_change` divides by the zero predecessor, its mean is NaN
(modelled `none`), and the statistic is not 0. -/
theorem c6_counterexample :
    trendByYear c6df = [(2018, 0), (2019, 0)] ∧
    yearlyGradeChange c6df = none ∧
    yearlyGradeChange c6df ≠ some 0 := by
  decide

/-- C6 amended: the average yearly percent-change statistic returns
NaN/None on a series of fewer than 2 points; on a series of at least 2
points with no zero value before the last it is the mean of the `n − 1`
year-over-year percent changes — the first year, whose change is
undefined, is excluded from the mean; and it is exactly 0 on a constant
series of at least 2 points whose common value is nonzero (on the
constant-zero series it is NaN/None, not 0). -/
theorem c6_pct_change_amended :
    (∀ s : List ℚ, s.length < 2 → pctChangeMean s = none) ∧
    (∀ s : List ℚ, 2 ≤ s.length → (0 : ℚ) ∉ s.dropLast →
      pctChangeMean s =
        some (100 * ((s.dropLast.zip s.tail).map (fun p => (p.2 - p.1) / p.1)).sum /
          ((s.length : ℚ) - 1))) ∧
    (∀ (s : List ℚ) (c : ℚ), 2 ≤ s.length → c ≠ 0 → (∀ x ∈ s, x = c) →
      pctChangeMean s = some 0) := by
  have hpart2 : ∀ s : List ℚ, 2 ≤ s.length → (0 : ℚ) ∉ s.dropLast →
      pctChangeMean s =
        some (100 * ((s.dropLast.zip s.tail).map (fun p => (p.2 - p.1) / p.1)).sum /
          ((s.length : ℚ) - 1)) := by
    intro s h h0
    unfold pctChangeMean
    rw [if_neg (by omega), if_neg h0]
    congr 1
    unfold mean
    rw [List.length_map, List.length_zip, List.length_dropLast, List.length_tail,
      min_self, Nat.cast_sub (by omega : 1 ≤ s.length), Nat.cast_one]
    ring
  refine ⟨fun s h => by unfold pctChangeMean; rw [if_pos h], hpart2, ?_⟩
  intro s c h hc hall
  have h0 : (0 : ℚ) ∉ s.dropLast :=
    fun hm => hc (hall 0 ((List.dropLast_sublist s).subset hm)).symm
  rw [hpart2 s h h0]
  have hz : ((s.dropLast.zip s.tail).map (fun p => (p.2 - p.1) / p.1)).sum = 0 := by
    apply List.sum_eq_zero
    intro x hx
    rcases List.mem_map.1 hx with ⟨p, hp, rfl⟩
    rcases p with ⟨u, v⟩
    rcases List.of_mem_zip hp with ⟨hu, hv⟩
    rw [hall u ((List.dropLast_sublist s).subset hu),
      hall v ((List.tail_sublist s).subset hv)]
    simp
  rw [hz]
  simp

theorem c6_pct_change_amended_witness :
    pctChangeMean [(5 : ℚ)] = none ∧
    pctChangeMean [(1 : ℚ), 2] =
      some (100 * ((([(1 : ℚ), 2].dropLast).zip ([(1 : ℚ), 2].tail)).map
        (fun p => (p.2 - p.1) / p.1)).sum / (([(1 : ℚ), 2].length : ℚ) - 1)) ∧
    pctChangeMean [(5 : ℚ), 5] = some 0 :=
  ⟨c6_pct_change_amended.1 [(5 : ℚ)] (by decide),
   c6_pct_change_amended.2.1 [(1 : ℚ), 2] (by decide) (by decide),
   c6_pct_change_amended.2.2 [(5 : ℚ), 5] 5 (by decide) (by decide) (by decide)⟩

/-- C7: the year-range filter keeps exactly the records whose year lies in
the closed interval `[lo, hi]` (both bounds inclusive), and applying the
same range filter twice equals applying it once. -/
theorem c7_range_filter :
    (∀ (df : List LRecord) (lo hi : ℤ) (r : LRecord),
      r ∈ filteredData df lo hi ↔ r ∈ df ∧ lo ≤ r.year ∧ r.year ≤ hi) ∧
    (∀ (df : List LRecord) (lo hi : ℤ),
      filteredData (filteredData df lo hi) lo hi = filteredData df lo hi) := by
  constructor
  · intro df lo hi r
    unfold filteredData
    rw [List.mem_filter]
    simp [and_assoc]
  · intro df lo hi
    unfold filteredData
    rw [List.filter_filter]
    exact List.filter_congr fun a _ => Bool.and_self _

/-- C8: the sidebar set filter keeps exactly the rows whose department is
in the department allowlist and whose major type is in the major-type
allowlist (the two active filters compose by conjunction); an empty
allowlist yields the empty table, not an unfiltered one; and allowlist
values that appear in no row are harmless — appending them changes
nothing. -/
theorem c8_set_filter :
    (∀ (t : List FmtRollupRow) (ds ms : List String) (r : FmtRollupRow),
      r ∈ filteredGroupedData t ds ms ↔
        r ∈ t ∧ r.department ∈ ds ∧ r.majorType ∈ ms) ∧
    (∀ (t : List FmtRollupRow) (ms : List String),
      filteredGroupedData t [] ms = []) ∧
    (∀ (t : List FmtRollupRow) (ds : List String),
      filteredGroupedData t ds [] = []) ∧
    (∀ (t : List FmtRollupRow) (ds extra ms : List String),
      (∀ v ∈ extra, ∀ r ∈ t, r.department ≠ v) →
      filteredGroupedData t (ds ++ extra) ms = filteredGroupedData t ds ms) := by
  refine ⟨?_, ?_, ?_, ?_⟩
  · intro t ds ms r
    unfold filteredGroupedData
    rw [List.mem_filter]
    simp [List.contains, and_assoc]
  · intro t ms
    unfold filteredGroupedData
    simp [List.contains]
  · intro t ds
    unfold filteredGroupedData
    simp [List.contains]
  · intro t ds extra ms hx
    unfold filteredGroupedData
    apply List.filter_congr
    intro r hr
    have hnx : r.department ∉ extra := fun hm => hx _ hm r hr rfl
    have hc : (ds ++ extra).contains r.department = ds.contains r.department := by
      simp [List.contains, List.mem_append, hnx]
    rw [hc]

/-- Witness row for `c8_set_filter`. -/
def c8row : FmtRollupRow :=
  { studentID := "1", registrationYear := "2015", birthYear := "1995",
    gender := "Kona", origin := "IS", department := "CS", majorType := "BSc",
    major := "CS-BSc", numberOfSemesters := 1, totalCredits := 30,
    averageGrade := 8 }

theorem c8_set_filter_witness :
    filteredGroupedData [c8row] (["CS"] ++ ["Law"]) ["BSc"] =
      filteredGroupedData [c8row] ["CS"] ["BSc"] :=
  c8_set_filter.2.2.2 [c8row] ["CS"] ["Law"] ["BSc"] (by decide)

/-- C9: swapping the two samples of the two-sample comparison negates the
numerator of the t-statistic and leaves its squared denominator and the
degrees of freedom unchanged — hence the t-statistic is negated and the
p-value, the fixed Student-t tail function of (|t|, df), is unchanged.
Stated for all sample pairs (degenerate pairs map NaN to NaN), which
covers the claim's pairs of at least 2 observations each. -/
theorem c9_ttest_swap : ∀ a b : List ℚ,
    ttest_ind b a false =
      Option.map (fun r => { r with tNum := -r.tNum }) (ttest_ind a b false) := by
  intro a b
  show ttest_ind_welch b a = Option.map _ (ttest_ind_welch a b)
  unfold ttest_ind_welch
  by_cases h : a.length < 2 ∨ b.length < 2
  · rw [if_pos h.symm, if_pos h]; rfl
  · rw [if_neg (fun hc => h hc.symm), if_neg h]
    by_cases hv : sampleVar a / (a.length : ℚ) + sampleVar b / (b.length : ℚ) = 0
    · have hv' : sampleVar b / (b.length : ℚ) + sampleVar a / (a.length : ℚ) = 0 := by
        rw [add_comm]; exact hv
      rw [if_pos hv', if_pos hv]; rfl
    · have hv' : ¬sampleVar b / (b.length : ℚ) + sampleVar a / (a.length : ℚ) = 0 :=
        fun hc => hv (by rw [add_comm]; exact hc)
      rw [if_neg hv', if_neg hv]
      simp only [Option.map_some']
      congr 1
      simp only [TResult.mk.injEq]
      refine ⟨by ring, by ring, by ring⟩

/-- C10: for every year-range selection and every department/major-type
allowlist selection, every aggregate view other than the filtered
per-student rollup table — the yearly trend and its average change, the
per-department and per-major-type trends and statistics, the gender
statistics, the pre/post-COVID describe bundles, the t-test, and the
outlier sets and counts — is computed from the full loaded table and is
therefore identical across all filter selections. -/
theorem c10_filter_independence :
    ∀ (df0 : List RawRecord) (r1 r2 : ℤ × ℤ) (d1 d2 m1 m2 : List String),
      (views df0 r1 d1 m1).gradeTrends = (views df0 r2 d2 m2).gradeTrends ∧
      (views df0 r1 d1 m1).yearlyChange = (views df0 r2 d2 m2).yearlyChange ∧
      (views df0 r1 d1 m1).deptTrends = (views df0 r2 d2 m2).deptTrends ∧
      (views df0 r1 d1 m1).deptChange = (views df0 r2 d2 m2).deptChange ∧
      (views df0 r1 d1 m1).majorTypeTrends = (views df0 r2 d2 m2).majorTypeTrends ∧
      (views df0 r1 d1 m1).genderTable = (views df0 r2 d2 m2).genderTable ∧
      (views df0 r1 d1 m1).preStats = (views df0 r2 d2 m2).preStats ∧
      (views df0 r1 d1 m1).postStats = (views df0 r2 d2 m2).postStats ∧
      (views df0 r1 d1 m1).tTest = (views df0 r2 d2 m2).tTest ∧
      (views df0 r1 d1 m1).preOutliers = (views df0 r2 d2 m2).preOutliers ∧
      (views df0 r1 d1 m1).postOutliers = (views df0 r2 d2 m2).postOutliers ∧
      (views df0 r1 d1 m1).outliersPreCount = (views df0 r2 d2 m2).outliersPreCount ∧
      (views df0 r1 d1 m1).outliersPostCount = (views df0 r2 d2 m2).outliersPostCount :=
  fun _ _ _ _ _ _ _ =>
    ⟨rfl, rfl, rfl, rfl, rfl, rfl, rfl, rfl, rfl, rfl, rfl, rfl, rfl⟩

end Dashboard
